import Mathlib

/-!
Shallow embedding of the RS485 test harness (`rs485_test_v2.py`).

The script drives a half-duplex serial bus: it opens a serial channel
(`connect`), sends fixed byte packets (`send_packet`), repeats a send in a
phase loop (`send_packet_multiple_times`), sequences five phases
(`run_full_test`), closes the channel (`disconnect`), and wires everything
together in `main`.

The serial transport is modelled as an oracle (`Transport`): for the n-th
write call it yields the outcome of `serial.write` (either the byte count
actually written, or one of the exception classes the script catches), and
the bytes available in the input buffer after the settle delay.  The tester
state records the `serial_conn` attribute (`none` = the Python `None`;
`some b` = a serial object whose `is_open` flag is `b`) and the number of
write calls performed so far (the oracle's cursor).  Observable actions
(loop iterations, sleeps, underlying close calls, open attempts) are
recorded in an event trace so that sequencing properties can be stated.
-/

namespace RS485

/-- Outcome of one underlying `serial.write` call: either it returns a byte
count, or it raises one of the exceptions the script catches
(`SerialTimeoutException`, `SerialException`, any other `Exception`). -/
inductive WriteOutcome where
  | ok (bytesWritten : Nat)
  | timeoutErr
  | serialErr
  | unexpectedErr
deriving DecidableEq, Repr

/-- Transport oracle: behaviour of the serial device, indexed by the number
of the write call. `writeResult n` is the outcome of the n-th write;
`availBytes n` is the content of the input buffer after the settle delay
following the n-th write. -/
structure Transport where
  writeResult : Nat → WriteOutcome
  availBytes : Nat → List Nat

/-- Observable events emitted by the harness. -/
inductive Ev where
  | attempt (i : Nat)
  | sleepSettle
  | sleepInterval (tenths : Nat)
  | sleepPhase
  | closeConn
  | openAttempt
deriving DecidableEq, Repr

/-- State of an `RS485Tester` object: the `serial_conn` attribute
(`none` = Python `None`, `some b` = serial object with `is_open = b`) and
the cursor into the transport oracle. -/
structure TesterState where
  conn : Option Bool
  writesDone : Nat
deriving DecidableEq, Repr

/-- `self.serial_conn and self.serial_conn.is_open`. -/
def connIsOpen (st : TesterState) : Bool :=
  match st.conn with
  | some true => true
  | _ => false

/-- State right after `__init__`: `self.serial_conn = None`. -/
def initState : TesterState := { conn := none, writesDone := 0 }

/-- `OFFLINE_QUERY_PACKET = bytes.fromhex("aa55807f00000001fe")`. -/
def OFFLINE_QUERY_PACKET : List Nat :=
  [0xaa, 0x55, 0x80, 0x7f, 0x00, 0x00, 0x00, 0x01, 0xfe]

/-- `REMOVE_REGISTER_PACKET = bytes.fromhex("aa55807f0002000200")`. -/
def REMOVE_REGISTER_PACKET : List Nat :=
  [0xaa, 0x55, 0x80, 0x7f, 0x00, 0x02, 0x00, 0x02, 0x00]

/-- `ALLOCATE_REGISTER_ADDRESS_PACKET =
bytes.fromhex("aa55807f000011313330303053535531323530303039381105a9")`. -/
def ALLOCATE_REGISTER_ADDRESS_PACKET : List Nat :=
  [0xaa, 0x55, 0x80, 0x7f, 0x00, 0x00, 0x11, 0x31, 0x33, 0x30, 0x30, 0x30,
   0x53, 0x53, 0x55, 0x31, 0x32, 0x35, 0x30, 0x30, 0x30, 0x39, 0x38, 0x11,
   0x05, 0xa9]

/-- `READ_DATA_PACKET = bytes.fromhex("aa5580110101000192")`. -/
def READ_DATA_PACKET : List Nat :=
  [0xaa, 0x55, 0x80, 0x11, 0x01, 0x01, 0x00, 0x01, 0x92]

/-- Possible outcome of `serial.Serial(...)` in `connect`: success, a
`SerialException` (device missing, permission denied, port busy), or any
other exception. -/
inductive OpenOutcome where
  | opened
  | serialFail
  | unexpectedFail
deriving DecidableEq, Repr

/-- `RS485Tester.connect`: on success stores an open serial object and
returns `True`; on `SerialException` or any other exception logs the error
and returns `False` (the spec's `ConnectionError` signal), leaving
`serial_conn` untouched. Emits one `openAttempt` event per call. -/
def connect (oc : OpenOutcome) (st : TesterState) : Bool × TesterState × List Ev :=
  match oc with
  | OpenOutcome.opened => (true, { st with conn := some true }, [Ev.openAttempt])
  | OpenOutcome.serialFail => (false, st, [Ev.openAttempt])
  | OpenOutcome.unexpectedFail => (false, st, [Ev.openAttempt])

/-- `RS485Tester.disconnect`: `if self.serial_conn and self.serial_conn.is_open:
self.serial_conn.close()`.  The underlying close is recorded as a
`closeConn` event; closing sets `is_open` to false. -/
def disconnect (st : TesterState) : TesterState × List Ev :=
  match st.conn with
  | some true => ({ st with conn := some false }, [Ev.closeConn])
  | _ => (st, [])

/-- `RS485Tester.send_packet`: returns `(success, response)` together with
the new state and the emitted events.  With no open connection it returns
`(False, None)` immediately.  Otherwise one write call is consumed from the
oracle: a short write (`bytes_written != len(packet)`) or any caught
exception yields `(False, None)`; a full write flushes, sleeps the settle
delay (0.5 s, `sleepSettle`), then reads the available bytes, recording the
response as `None` when the input buffer is empty, and returns `True`. -/
def send_packet (tr : Transport) (st : TesterState) (packet : List Nat) :
    (Bool × Option (List Nat)) × TesterState × List Ev :=
  if connIsOpen st then
    match tr.writeResult st.writesDone with
    | WriteOutcome.ok n =>
      if n = packet.length then
        let avail := tr.availBytes st.writesDone
        ((true, if avail.isEmpty then none else some avail),
          { st with writesDone := st.writesDone + 1 }, [Ev.sleepSettle])
      else
        ((false, none), { st with writesDone := st.writesDone + 1 }, [])
    | WriteOutcome.timeoutErr =>
        ((false, none), { st with writesDone := st.writesDone + 1 }, [])
    | WriteOutcome.serialErr =>
        ((false, none), { st with writesDone := st.writesDone + 1 }, [])
    | WriteOutcome.unexpectedErr =>
        ((false, none), { st with writesDone := st.writesDone + 1 }, [])
  else
    ((false, none), st, [])

/-- The `for i in range(count)` loop of `send_packet_multiple_times`,
carrying the current loop index `i` and the remaining iteration count.
Each iteration emits an `attempt i` event (the "Transmission i+1/count"
log line), performs one `send_packet`, and sleeps `interval` tenths of a
second (`sleepInterval`) unless this was the last iteration
(`if i < count - 1`). -/
def sendLoop (tr : Transport) (packet : List Nat) (interval : Nat) :
    Nat → Nat → TesterState → Nat × TesterState × List Ev
  | _, 0, st => (0, st, [])
  | i, Nat.succ r, st =>
    let step := send_packet tr st packet
    let tSleep : List Ev := if r = 0 then [] else [Ev.sleepInterval interval]
    let rest := sendLoop tr packet interval (i + 1) r step.2.1
    ((if step.1.1 then 1 else 0) + rest.1, rest.2.1,
      (Ev.attempt i :: step.2.2) ++ tSleep ++ rest.2.2)

/-- `RS485Tester.send_packet_multiple_times`: sends `packet` `count` times
with `interval` tenths of a second between consecutive sends, returning the
number of successful transmissions (in the Python source the defaults are
`count=5`, `interval=5.0` seconds). -/
def send_packet_multiple_times (tr : Transport) (st : TesterState)
    (packet : List Nat) (count : Nat) (interval : Nat) :
    Nat × TesterState × List Ev :=
  sendLoop tr packet interval 0 count st

/-- Per-phase result as tallied by `run_full_test`: phase name, packet
sent, attempts requested and attempts successful. -/
structure PhaseResult where
  name : String
  packet : List Nat
  requested : Nat
  successful : Nat
deriving DecidableEq, Repr

/-- The fixed phase sequence of `run_full_test`, in program order. -/
def phaseList : List (String × List Nat) :=
  [("Off-line Query", OFFLINE_QUERY_PACKET),
   ("Remove Register", REMOVE_REGISTER_PACKET),
   ("Off-line Query (Repeated)", OFFLINE_QUERY_PACKET),
   ("Allocate Register Address", ALLOCATE_REGISTER_ADDRESS_PACKET),
   ("Read Data", READ_DATA_PACKET)]

/-- The phase sequence of `run_full_test`, with the `KeyboardInterrupt`
handler modelled by `intr`: `intr = some k` means the operator interrupt
fires during phase index `k` (phases `0 .. k-1` have completed), in which
case the `except KeyboardInterrupt` branch returns `False`.  Each phase
runs `send_packet_multiple_times` with `count=5, interval=2.0`, and a
2-second pause (`sleepPhase`) separates consecutive phases. -/
def runPhases (tr : Transport) (intr : Option Nat) :
    Nat → List (String × List Nat) → TesterState →
    Bool × List PhaseResult × TesterState × List Ev
  | _, [], st => (true, [], st, [])
  | k, spec :: rest, st =>
    if intr = some k then (false, [], st, [])
    else
      let ph := send_packet_multiple_times tr st spec.2 5 20
      let tPause : List Ev := if rest.isEmpty then [] else [Ev.sleepPhase]
      let r := runPhases tr intr (k + 1) rest ph.2.1
      (r.1, { name := spec.1, packet := spec.2, requested := 5,
              successful := ph.1 } :: r.2.1,
        r.2.2.1, ph.2.2 ++ tPause ++ r.2.2.2)

/-- `RS485Tester.run_full_test`: runs the five phases in order and returns
`True` once all of them completed (regardless of the per-phase success
counts); returns `False` when a `KeyboardInterrupt` (modelled by `intr`)
cuts the sequence short. -/
def run_full_test (tr : Transport) (st : TesterState) (intr : Option Nat) :
    Bool × List PhaseResult × TesterState × List Ev :=
  runPhases tr intr 0 phaseList st

/-- Result of a `main` run: the process exit code, the value returned by
`run_full_test` (`none` when the run never started because the connection
failed), the final tester state, and the concatenated event trace. -/
structure MainResult where
  exitCode : Nat
  runResult : Option Bool
  finalState : TesterState
  trace : List Ev
deriving Repr

/-- `main`: builds the tester, connects (exiting with code 1 when `connect`
returns `False`), runs the full test, disconnects, and exits with code 0
exactly when `run_full_test` returned `True`. -/
def main (oc : OpenOutcome) (tr : Transport) (intr : Option Nat) : MainResult :=
  let c := connect oc initState
  if c.1 then
    let r := run_full_test tr c.2.1 intr
    let d := disconnect r.2.2.1
    { exitCode := if r.1 then 0 else 1, runResult := some r.1,
      finalState := d.1, trace := c.2.2 ++ r.2.2.2 ++ d.2 }
  else
    { exitCode := 1, runResult := none, finalState := c.2.1, trace := c.2.2 }

/-- Is this event a loop-iteration (attempt) marker? -/
def isAttemptEv : Ev → Bool
  | Ev.attempt _ => true
  | _ => false

/-- Is this event an inter-attempt sleep? -/
def isIntervalSleepEv : Ev → Bool
  | Ev.sleepInterval _ => true
  | _ => false

/-- Is this event an underlying close call? -/
def isCloseEv : Ev → Bool
  | Ev.closeConn => true
  | _ => false

/-- Is this event an open attempt? -/
def isOpenEv : Ev → Bool
  | Ev.openAttempt => true
  | _ => false

/-- Number of attempt events in a trace. -/
def countAttempts (t : List Ev) : Nat := t.countP isAttemptEv

/-- Number of inter-attempt sleeps in a trace. -/
def countIntervalSleeps (t : List Ev) : Nat := t.countP isIntervalSleepEv

/-- Number of underlying close calls in a trace. -/
def countClose (t : List Ev) : Nat := t.countP isCloseEv

/-- Number of open attempts in a trace. -/
def countOpens (t : List Ev) : Nat := t.countP isOpenEv

/-! ### Helper lemmas about `send_packet` -/

theorem send_packet_conn (tr : Transport) (st : TesterState) (packet : List Nat) :
    (send_packet tr st packet).2.1.conn = st.conn := by
  unfold send_packet
  cases h : connIsOpen st <;> simp [h]
  cases tr.writeResult st.writesDone <;> simp
  split <;> simp

theorem send_packet_writes_open (tr : Transport) (st : TesterState)
    (packet : List Nat) (h : connIsOpen st = true) :
    (send_packet tr st packet).2.1.writesDone = st.writesDone + 1 := by
  unfold send_packet
  simp [h]
  cases tr.writeResult st.writesDone <;> simp
  split <;> simp

theorem send_packet_trace_cases (tr : Transport) (st : TesterState)
    (packet : List Nat) :
    (send_packet tr st packet).2.2 = [] ∨
    (send_packet tr st packet).2.2 = [Ev.sleepSettle] := by
  unfold send_packet
  cases h : connIsOpen st <;> simp [h]
  cases tr.writeResult st.writesDone <;> simp
  split <;> simp

theorem countAttempts_send (tr : Transport) (st : TesterState) (packet : List Nat) :
    countAttempts (send_packet tr st packet).2.2 = 0 := by
  rcases send_packet_trace_cases tr st packet with h | h <;>
    simp [h, countAttempts, isAttemptEv]

theorem countIntervalSleeps_send (tr : Transport) (st : TesterState)
    (packet : List Nat) :
    countIntervalSleeps (send_packet tr st packet).2.2 = 0 := by
  rcases send_packet_trace_cases tr st packet with h | h <;>
    simp [h, countIntervalSleeps, isIntervalSleepEv]

theorem countClose_send (tr : Transport) (st : TesterState) (packet : List Nat) :
    countClose (send_packet tr st packet).2.2 = 0 := by
  rcases send_packet_trace_cases tr st packet with h | h <;>
    simp [h, countClose, isCloseEv]

/-! ### Helper lemmas about `sendLoop` -/

theorem sendLoop_zero (tr : Transport) (packet : List Nat) (interval i : Nat)
    (st : TesterState) :
    sendLoop tr packet interval i 0 st = (0, st, []) := rfl

theorem sendLoop_succ (tr : Transport) (packet : List Nat) (interval i r : Nat)
    (st : TesterState) :
    sendLoop tr packet interval i (r + 1) st =
      (((if (send_packet tr st packet).1.1 then 1 else 0) +
          (sendLoop tr packet interval (i + 1) r (send_packet tr st packet).2.1).1),
        (sendLoop tr packet interval (i + 1) r (send_packet tr st packet).2.1).2.1,
        (Ev.attempt i :: (send_packet tr st packet).2.2) ++
          (if r = 0 then [] else [Ev.sleepInterval interval]) ++
          (sendLoop tr packet interval (i + 1) r (send_packet tr st packet).2.1).2.2) :=
  rfl

theorem sendLoop_le (tr : Transport) (packet : List Nat) (interval : Nat) :
    ∀ (r i : Nat) (st : TesterState), (sendLoop tr packet interval i r st).1 ≤ r := by
  intro r
  induction r with
  | zero => intro i st; simp [sendLoop_zero]
  | succ r ih =>
    intro i st
    rw [sendLoop_succ]
    have := ih (i + 1) (send_packet tr st packet).2.1
    split <;> omega

theorem sendLoop_attempts (tr : Transport) (packet : List Nat) (interval : Nat) :
    ∀ (r i : Nat) (st : TesterState),
      countAttempts (sendLoop tr packet interval i r st).2.2 = r := by
  intro r
  induction r with
  | zero => intro i st; simp [sendLoop_zero, countAttempts]
  | succ r ih =>
    intro i st
    have h1 := countAttempts_send tr st packet
    have h2 := ih (i + 1) (send_packet tr st packet).2.1
    simp only [countAttempts] at h1 h2 ⊢
    rw [sendLoop_succ]
    simp only [List.countP_append, List.countP_cons, h1, h2, isAttemptEv]
    rcases Nat.eq_zero_or_pos r with hr | hr
    · subst hr; simp [isAttemptEv]
    · have hne : ¬ (r = 0) := by omega
      simp [hne, isAttemptEv]
      omega

theorem sendLoop_intervals (tr : Transport) (packet : List Nat) (interval : Nat) :
    ∀ (r i : Nat) (st : TesterState),
      countIntervalSleeps (sendLoop tr packet interval i r st).2.2 = r - 1 := by
  intro r
  induction r with
  | zero => intro i st; simp [sendLoop_zero, countIntervalSleeps]
  | succ r ih =>
    intro i st
    have h1 := countIntervalSleeps_send tr st packet
    have h2 := ih (i + 1) (send_packet tr st packet).2.1
    simp only [countIntervalSleeps] at h1 h2 ⊢
    rw [sendLoop_succ]
    simp only [List.countP_append, List.countP_cons, h1, h2, isIntervalSleepEv]
    rcases Nat.eq_zero_or_pos r with hr | hr
    · subst hr; simp [isIntervalSleepEv]
    · have hne : ¬ (r = 0) := by omega
      simp [hne, isIntervalSleepEv]
      omega

theorem sendLoop_conn (tr : Transport) (packet : List Nat) (interval : Nat) :
    ∀ (r i : Nat) (st : TesterState),
      (sendLoop tr packet interval i r st).2.1.conn = st.conn := by
  intro r
  induction r with
  | zero => intro i st; rfl
  | succ r ih =>
    intro i st
    rw [sendLoop_succ]
    simp only
    rw [ih (i + 1) (send_packet tr st packet).2.1, send_packet_conn]

theorem sendLoop_writes (tr : Transport) (packet : List Nat) (interval : Nat) :
    ∀ (r i : Nat) (st : TesterState), connIsOpen st = true →
      (sendLoop tr packet interval i r st).2.1.writesDone = st.writesDone + r := by
  intro r
  induction r with
  | zero => intro i st _; rfl
  | succ r ih =>
    intro i st h
    have hconn : connIsOpen (send_packet tr st packet).2.1 = true := by
      unfold connIsOpen at *
      rw [send_packet_conn]
      exact h
    rw [sendLoop_succ]
    simp only
    rw [ih (i + 1) (send_packet tr st packet).2.1 hconn,
      send_packet_writes_open tr st packet h]
    omega

theorem sendLoop_ne_nil (tr : Transport) (packet : List Nat) (interval i r : Nat)
    (st : TesterState) (h : 1 ≤ r) :
    (sendLoop tr packet interval i r st).2.2 ≠ [] := by
  cases r with
  | zero => omega
  | succ r => rw [sendLoop_succ]; simp

theorem sendLoop_last (tr : Transport) (packet : List Nat) (interval : Nat) :
    ∀ (r i : Nat) (st : TesterState) (e : Ev),
      (sendLoop tr packet interval i r st).2.2.getLast? = some e →
      isIntervalSleepEv e = false := by
  intro r
  induction r with
  | zero => intro i st e h; simp [sendLoop_zero] at h
  | succ r ih =>
    intro i st e h
    rw [sendLoop_succ] at h
    rcases Nat.eq_zero_or_pos r with hr | hr
    · subst hr
      rw [sendLoop_zero] at h
      simp at h
      rcases send_packet_trace_cases tr st packet with ht | ht <;>
        rw [ht] at h <;> simp at h <;> subst h <;> rfl
    · have hne : (sendLoop tr packet interval (i + 1) r
          (send_packet tr st packet).2.1).2.2 ≠ [] :=
        sendLoop_ne_nil tr packet interval (i + 1) r _ hr
      have h' : ((Ev.attempt i :: (send_packet tr st packet).2.2 ++
            (if r = 0 then [] else [Ev.sleepInterval interval])) ++
          (sendLoop tr packet interval (i + 1) r
            (send_packet tr st packet).2.1).2.2).getLast? = some e := h
      rw [List.getLast?_append_of_ne_nil _ hne] at h'
      exact ih (i + 1) (send_packet tr st packet).2.1 e h'

theorem countClose_sendLoop (tr : Transport) (packet : List Nat) (interval : Nat) :
    ∀ (r i : Nat) (st : TesterState),
      countClose (sendLoop tr packet interval i r st).2.2 = 0 := by
  intro r
  induction r with
  | zero => intro i st; simp [sendLoop_zero, countClose]
  | succ r ih =>
    intro i st
    have h1 := countClose_send tr st packet
    have h2 := ih (i + 1) (send_packet tr st packet).2.1
    simp only [countClose] at h1 h2 ⊢
    rw [sendLoop_succ]
    simp only [List.countP_append, List.countP_cons, h1, h2, isCloseEv]
    rcases Nat.eq_zero_or_pos r with hr | hr
    · subst hr; simp [isCloseEv]
    · have hne : ¬ (r = 0) := by omega
      simp [hne, isCloseEv]

/-! ### Helper lemmas about `runPhases` -/

theorem runPhases_nil (tr : Transport) (intr : Option Nat) (k : Nat)
    (st : TesterState) :
    runPhases tr intr k [] st = (true, [], st, []) := rfl

theorem runPhases_cons (tr : Transport) (intr : Option Nat) (k : Nat)
    (spec : String × List Nat) (rest : List (String × List Nat))
    (st : TesterState) :
    runPhases tr intr k (spec :: rest) st =
      if intr = some k then (false, [], st, [])
      else
        ((runPhases tr intr (k + 1) rest
            (send_packet_multiple_times tr st spec.2 5 20).2.1).1,
          { name := spec.1, packet := spec.2, requested := 5,
            successful := (send_packet_multiple_times tr st spec.2 5 20).1 } ::
            (runPhases tr intr (k + 1) rest
              (send_packet_multiple_times tr st spec.2 5 20).2.1).2.1,
          (runPhases tr intr (k + 1) rest
            (send_packet_multiple_times tr st spec.2 5 20).2.1).2.2.1,
          (send_packet_multiple_times tr st spec.2 5 20).2.2 ++
            (if rest.isEmpty then [] else [Ev.sleepPhase]) ++
            (runPhases tr intr (k + 1) rest
              (send_packet_multiple_times tr st spec.2 5 20).2.1).2.2.2) := rfl

theorem runPhases_conn (tr : Transport) (intr : Option Nat) :
    ∀ (specs : List (String × List Nat)) (k : Nat) (st : TesterState),
      (runPhases tr intr k specs st).2.2.1.conn = st.conn := by
  intro specs
  induction specs with
  | nil => intro k st; rfl
  | cons spec rest ih =>
    intro k st
    rw [runPhases_cons]
    by_cases h : intr = some k
    · rw [if_pos h]
    · rw [if_neg h]
      exact (ih (k + 1) _).trans (sendLoop_conn tr spec.2 20 5 0 st)

theorem runPhases_none_result (tr : Transport) :
    ∀ (specs : List (String × List Nat)) (k : Nat) (st : TesterState),
      (runPhases tr none k specs st).1 = true := by
  intro specs
  induction specs with
  | nil => intro k st; rfl
  | cons spec rest ih =>
    intro k st
    rw [runPhases_cons, if_neg (by simp)]
    exact ih (k + 1) _

theorem runPhases_none_phases (tr : Transport) :
    ∀ (specs : List (String × List Nat)) (k : Nat) (st : TesterState),
      (runPhases tr none k specs st).2.1.map
          (fun p => (p.name, p.packet, p.requested)) =
        specs.map (fun s => (s.1, s.2, 5)) := by
  intro specs
  induction specs with
  | nil => intro k st; rfl
  | cons spec rest ih =>
    intro k st
    rw [runPhases_cons, if_neg (by simp)]
    simp only [List.map_cons]
    rw [ih (k + 1) _]

theorem runPhases_none_attempts (tr : Transport) :
    ∀ (specs : List (String × List Nat)) (k : Nat) (st : TesterState),
      countAttempts (runPhases tr none k specs st).2.2.2 = 5 * specs.length := by
  intro specs
  induction specs with
  | nil => intro k st; simp [runPhases_nil, countAttempts]
  | cons spec rest ih =>
    intro k st
    rw [runPhases_cons, if_neg (by simp)]
    have h1 : countAttempts (send_packet_multiple_times tr st spec.2 5 20).2.2 = 5 :=
      sendLoop_attempts tr spec.2 20 5 0 st
    have h2 := ih (k + 1) (send_packet_multiple_times tr st spec.2 5 20).2.1
    simp only [countAttempts] at h1 h2 ⊢
    simp only [List.countP_append, h1, h2, List.length_cons]
    have h3 : (if rest.isEmpty then ([] : List Ev) else [Ev.sleepPhase]).countP
        isAttemptEv = 0 := by
      split <;> simp [isAttemptEv]
    rw [h3]
    ring

theorem countClose_runPhases (tr : Transport) (intr : Option Nat) :
    ∀ (specs : List (String × List Nat)) (k : Nat) (st : TesterState),
      countClose (runPhases tr intr k specs st).2.2.2 = 0 := by
  intro specs
  induction specs with
  | nil => intro k st; simp [runPhases_nil, countClose]
  | cons spec rest ih =>
    intro k st
    rw [runPhases_cons]
    by_cases h : intr = some k
    · rw [if_pos h]; simp [countClose]
    · rw [if_neg h]
      have h1 : countClose (send_packet_multiple_times tr st spec.2 5 20).2.2 = 0 :=
        countClose_sendLoop tr spec.2 20 5 0 st
      have h2 := ih (k + 1) (send_packet_multiple_times tr st spec.2 5 20).2.1
      simp only [countClose] at h1 h2 ⊢
      simp only [List.countP_append, h1, h2]
      have h3 : (if rest.isEmpty then ([] : List Ev) else [Ev.sleepPhase]).countP
          isCloseEv = 0 := by
        split <;> simp [isCloseEv]
      rw [h3]

theorem runPhases_false_iff (tr : Transport) (intr : Option Nat) :
    ∀ (specs : List (String × List Nat)) (k : Nat) (st : TesterState),
      ((runPhases tr intr k specs st).1 = false ↔
        ∃ j, intr = some j ∧ k ≤ j ∧ j < k + specs.length) := by
  intro specs
  induction specs with
  | nil =>
    intro k st
    simp only [runPhases_nil, List.length_nil]
    constructor
    · intro h; exact absurd h (by simp)
    · rintro ⟨j, _, hj1, hj2⟩; omega
  | cons spec rest ih =>
    intro k st
    rw [runPhases_cons]
    by_cases h : intr = some k
    · rw [if_pos h]
      constructor
      · intro _
        exact ⟨k, h, Nat.le_refl k, by simp [List.length_cons]⟩
      · intro _; rfl
    · rw [if_neg h]
      have hih := ih (k + 1) (send_packet_multiple_times tr st spec.2 5 20).2.1
      constructor
      · intro hf
        rcases hih.mp hf with ⟨j, hj, hj1, hj2⟩
        refine ⟨j, hj, by omega, ?_⟩
        simp only [List.length_cons]
        omega
      · rintro ⟨j, hj, hj1, hj2⟩
        apply hih.mpr
        refine ⟨j, hj, ?_, ?_⟩
        · rcases Nat.lt_or_ge k j with hlt | hge
          · omega
          · have : j = k := by omega
            subst this
            exact absurd hj h
        · simp only [List.length_cons] at hj2
          omega

/-! ### Concrete fixtures used by witnesses -/

/-- Transport that accepts every write reporting one byte written, with an
always-empty input buffer. -/
def trOk : Transport := ⟨fun _ => WriteOutcome.ok 1, fun _ => []⟩

/-- Transport whose every write raises a write timeout. -/
def trTimeout : Transport := ⟨fun _ => WriteOutcome.timeoutErr, fun _ => []⟩

/-- Transport that reports only 5 bytes written on every write. -/
def trShort : Transport := ⟨fun _ => WriteOutcome.ok 5, fun _ => []⟩

/-- Tester state holding an open serial connection. -/
def stOpen : TesterState := ⟨some true, 0⟩

/-- Tester state whose serial object exists but has been closed. -/
def stClosed : TesterState := ⟨some false, 0⟩

/-- Auxiliary: after `disconnect` the connection is never open. -/
theorem connIsOpen_disconnect (st : TesterState) :
    connIsOpen (disconnect st).1 = false := by
  rcases st with ⟨conn, w⟩
  rcases conn with _ | b
  · rfl
  · cases b <;> rfl

/-- Auxiliary: `disconnect` on an open connection closes it and performs one
underlying close. -/
theorem disconnect_eq_of_open (st : TesterState) (h : st.conn = some true) :
    disconnect st = ({ st with conn := some false }, [Ev.closeConn]) := by
  unfold disconnect
  rw [h]

/-! ### The claims -/

/-- Claim C1: for every phase execution of `send_packet_multiple_times` with
any attempt count `count ≥ 0`, the returned number of successful attempts is
at most `count`. -/
theorem claim_C1 (tr : Transport) (st : TesterState) (packet : List Nat)
    (count interval : Nat) :
    (send_packet_multiple_times tr st packet count interval).1 ≤ count :=
  sendLoop_le tr packet interval count 0 st

/-- Claim C3: with an open channel, `send_packet` returns success exactly
when the write completed fully (the write call returned the packet length
and raised no timeout or transport error), independent of whether response
bytes arrived; when no bytes are available after the settle delay the
response is recorded as absent and the send still succeeds. -/
theorem claim_C3 (tr : Transport) (st : TesterState) (packet : List Nat)
    (h : connIsOpen st = true) :
    ((send_packet tr st packet).1.1 = true ↔
      tr.writeResult st.writesDone = WriteOutcome.ok packet.length) ∧
    (tr.writeResult st.writesDone = WriteOutcome.ok packet.length →
      tr.availBytes st.writesDone = [] →
      (send_packet tr st packet).1 = (true, none)) := by
  unfold send_packet
  simp only [h, if_true]
  cases hw : tr.writeResult st.writesDone with
  | ok n =>
    by_cases hn : n = packet.length
    · subst hn
      simp only [if_pos rfl]
      constructor
      · simp
      · intro _ hav
        simp [hav]
    · constructor
      · simp [hn]
      · intro habs _
        injection habs with hinj
        exact absurd hinj hn
  | timeoutErr => simp
  | serialErr => simp
  | unexpectedErr => simp

/-- Witness for claim C3 at a concrete input. -/
theorem claim_C3_witness :
    connIsOpen stOpen = true ∧ (send_packet trOk stOpen [7]).1 = (true, none) :=
  ⟨rfl, (claim_C3 trOk stOpen [7] rfl).2 rfl rfl⟩

/-- Claim C4: every per-attempt error during a send — write timeout,
transport-level error, unexpected error, or a short write of fewer bytes
than the packet length — makes `send_packet` return `(false, none)` to its
caller (the exception is caught inside `send_packet`, so nothing propagates
to abort a phase or the run). -/
theorem claim_C4 (tr : Transport) (st : TesterState) (packet : List Nat)
    (h : connIsOpen st = true)
    (herr : tr.writeResult st.writesDone = WriteOutcome.timeoutErr ∨
      tr.writeResult st.writesDone = WriteOutcome.serialErr ∨
      tr.writeResult st.writesDone = WriteOutcome.unexpectedErr ∨
      ∃ n, tr.writeResult st.writesDone = WriteOutcome.ok n ∧ n ≠ packet.length) :
    (send_packet tr st packet).1 = (false, none) := by
  unfold send_packet
  simp only [h, if_true]
  rcases herr with he | he | he | ⟨n, he, hn⟩
  · simp [he]
  · simp [he]
  · simp [he]
  · simp [he, hn]

/-- Witness for claim C4: the spec's example, a 9-byte packet of which only
5 bytes are reported written. -/
theorem claim_C4_witness :
    connIsOpen stOpen = true ∧ READ_DATA_PACKET.length = 9 ∧
    (send_packet trShort stOpen READ_DATA_PACKET).1 = (false, none) :=
  ⟨rfl, rfl, claim_C4 trShort stOpen READ_DATA_PACKET rfl
    (Or.inr (Or.inr (Or.inr ⟨5, rfl, by decide⟩)))⟩

/-- Claim C10: whenever `send_packet` returns success = false the response
is absent, and with no open channel it returns `(false, none)` without
raising. -/
theorem claim_C10 (tr : Transport) (st : TesterState) (packet : List Nat) :
    ((send_packet tr st packet).1.1 = false →
      (send_packet tr st packet).1.2 = none) ∧
    (connIsOpen st = false → (send_packet tr st packet).1 = (false, none)) := by
  unfold send_packet
  cases h : connIsOpen st
  · simp
  · simp only [if_true, h]
    constructor
    · cases hw : tr.writeResult st.writesDone
      case ok n =>
        by_cases hn : n = packet.length
        · subst hn; simp
        · simp [hn]
      all_goals simp
    · simp

/-- Witness for claim C10: a send on a closed channel. -/
theorem claim_C10_witness :
    connIsOpen stClosed = false ∧
    (send_packet trOk stClosed [7]).1 = (false, none) :=
  ⟨rfl, (claim_C10 trOk stClosed [7]).2 rfl⟩

/-- Claim C7: `send_packet_multiple_times` never aborts early: for every
`count ≥ 1` (channel open) it performs exactly `count` sequential attempts
(each consuming exactly one write call), emits exactly `count - 1`
inter-attempt waits, never ends the phase on an inter-attempt wait (no wait
after the last attempt), and returns at most `count` successes. -/
theorem claim_C7 (tr : Transport) (st : TesterState) (packet : List Nat)
    (count interval : Nat) (_hc : 1 ≤ count) (h : connIsOpen st = true) :
    countAttempts (send_packet_multiple_times tr st packet count interval).2.2 =
      count ∧
    (send_packet_multiple_times tr st packet count interval).2.1.writesDone =
      st.writesDone + count ∧
    countIntervalSleeps
        (send_packet_multiple_times tr st packet count interval).2.2 =
      count - 1 ∧
    (∀ e, (send_packet_multiple_times tr st packet count interval).2.2.getLast? =
        some e → isIntervalSleepEv e = false) ∧
    (send_packet_multiple_times tr st packet count interval).1 ≤ count :=
  ⟨sendLoop_attempts tr packet interval count 0 st,
    sendLoop_writes tr packet interval count 0 st h,
    sendLoop_intervals tr packet interval count 0 st,
    fun e he => sendLoop_last tr packet interval count 0 st e he,
    sendLoop_le tr packet interval count 0 st⟩

/-- Witness for claim C7 at a concrete input. -/
theorem claim_C7_witness :
    1 ≤ 2 ∧ connIsOpen stOpen = true ∧
    countAttempts (send_packet_multiple_times trOk stOpen [7] 2 3).2.2 = 2 :=
  ⟨by decide, rfl, (claim_C7 trOk stOpen [7] 2 3 (by decide) rfl).1⟩

/-- Claim C2: with the default configuration, `run_full_test` runs exactly
five phases in the fixed order offline-query, remove-register,
offline-query (repeated), allocate-register-address, read-data, each with
5 requested attempts (25 attempt events in total), and the phase-3 packet
is byte-for-byte the phase-1 offline-query packet. -/
theorem claim_C2 (tr : Transport) (st : TesterState) :
    (run_full_test tr st none).2.1.map
        (fun p => (p.name, p.packet, p.requested)) =
      [("Off-line Query", OFFLINE_QUERY_PACKET, 5),
       ("Remove Register", REMOVE_REGISTER_PACKET, 5),
       ("Off-line Query (Repeated)", OFFLINE_QUERY_PACKET, 5),
       ("Allocate Register Address", ALLOCATE_REGISTER_ADDRESS_PACKET, 5),
       ("Read Data", READ_DATA_PACKET, 5)] ∧
    countAttempts (run_full_test tr st none).2.2.2 = 25 ∧
    ((run_full_test tr st none).2.1.map PhaseResult.packet)[2]? =
      ((run_full_test tr st none).2.1.map PhaseResult.packet)[0]? := by
  have h1 : (run_full_test tr st none).2.1.map
      (fun p => (p.name, p.packet, p.requested)) =
      phaseList.map (fun s => (s.1, s.2, 5)) :=
    runPhases_none_phases tr phaseList 0 st
  have h2 : countAttempts (run_full_test tr st none).2.2.2 =
      5 * phaseList.length :=
    runPhases_none_attempts tr phaseList 0 st
  refine ⟨h1.trans (by rfl), h2.trans (by rfl), ?_⟩
  have hp : (run_full_test tr st none).2.1.map PhaseResult.packet =
      [OFFLINE_QUERY_PACKET, REMOVE_REGISTER_PACKET, OFFLINE_QUERY_PACKET,
       ALLOCATE_REGISTER_ADDRESS_PACKET, READ_DATA_PACKET] := by
    have h3 := congrArg
      (List.map (fun t : String × List Nat × Nat => t.2.1)) h1
    rw [List.map_map, List.map_map] at h3
    exact h3.trans (by rfl)
  rw [hp]
  rfl

/-- Claim C5: `run_full_test` returns true exactly when the phase sequence
fully executed — for every transport, hence regardless of the success ratio
achieved (even zero successful sends) — and returns false exactly when an
interrupt cuts it short before all five phases completed. -/
theorem claim_C5 (tr : Transport) (st : TesterState) (intr : Option Nat) :
    ((run_full_test tr st intr).1 = false ↔ ∃ j, intr = some j ∧ j < 5) ∧
    (run_full_test tr st none).1 = true := by
  constructor
  · have h : ((run_full_test tr st intr).1 = false ↔
        ∃ j, intr = some j ∧ 0 ≤ j ∧ j < 0 + phaseList.length) :=
      runPhases_false_iff tr intr phaseList 0 st
    have hlen : (0 : Nat) + phaseList.length = 5 := rfl
    rw [hlen] at h
    simpa using h
  · exact runPhases_none_result tr phaseList 0 st

/-- Claim C8: `disconnect` is idempotent: on a never-opened or
already-closed channel it is a no-op performing no underlying close, and
two sequential `disconnect` calls perform at most one underlying close. -/
theorem claim_C8 (st : TesterState) :
    (st.conn = none → disconnect st = (st, [])) ∧
    (st.conn = some false → disconnect st = (st, [])) ∧
    disconnect (disconnect st).1 = ((disconnect st).1, []) ∧
    countClose (disconnect st).2 +
      countClose (disconnect (disconnect st).1).2 ≤ 1 := by
  rcases st with ⟨conn, w⟩
  rcases conn with _ | b
  · exact ⟨fun _ => rfl, fun hc => by simp at hc, rfl,
      by simp [disconnect, countClose]⟩
  · cases b
    · exact ⟨fun hc => by simp at hc, fun _ => rfl, rfl,
        by simp [disconnect, countClose]⟩
    · refine ⟨fun hc => by simp at hc, fun hc => by simp at hc, rfl, ?_⟩
      simp [disconnect, countClose, isCloseEv]

/-- Witness for claim C8: a second `disconnect` on a closed channel is a
no-op. -/
theorem claim_C8_witness :
    stClosed.conn = some false ∧ disconnect stClosed = (stClosed, []) :=
  ⟨rfl, (claim_C8 stClosed).2.1 rfl⟩

/-- Claim C6: when the underlying transport cannot be opened (a serial
failure such as device missing, permission denied or port busy, or any
other failure), `connect` reports the failure to its caller by returning
false, `main` performs exactly one open attempt (no retry), never starts
the run, and exits with code 1. -/
theorem claim_C6 (oc : OpenOutcome) (tr : Transport) (intr : Option Nat)
    (h : oc ≠ OpenOutcome.opened) :
    (connect oc initState).1 = false ∧
    (main oc tr intr).exitCode = 1 ∧
    (main oc tr intr).runResult = none ∧
    countOpens (main oc tr intr).trace = 1 := by
  cases oc
  · exact absurd rfl h
  · exact ⟨rfl, rfl, rfl, rfl⟩
  · exact ⟨rfl, rfl, rfl, rfl⟩

/-- Witness for claim C6: a serial open failure exits with code 1. -/
theorem claim_C6_witness :
    OpenOutcome.serialFail ≠ OpenOutcome.opened ∧
    (main OpenOutcome.serialFail trOk none).exitCode = 1 :=
  ⟨by decide, (claim_C6 OpenOutcome.serialFail trOk none (by decide)).2.1⟩

/-- Claim C9: on every exit path of `main` the channel is not left open:
after a failed connect no channel was opened, and after a completed,
errored or interrupted run the channel has been closed (exactly one
underlying close once a connection was opened); an interrupt makes the run
report non-completion (false) and the process exit with code 1. -/
theorem claim_C9 (oc : OpenOutcome) (tr : Transport) (intr : Option Nat) :
    connIsOpen (main oc tr intr).finalState = false ∧
    (oc = OpenOutcome.opened → countClose (main oc tr intr).trace = 1) ∧
    (∀ k, intr = some k → k < 5 →
      (main OpenOutcome.opened tr intr).runResult = some false ∧
      (main OpenOutcome.opened tr intr).exitCode = 1) := by
  have hconn : (run_full_test tr (⟨some true, 0⟩ : TesterState) intr).2.2.1.conn =
      some true :=
    runPhases_conn tr intr phaseList 0 ⟨some true, 0⟩
  have hd := disconnect_eq_of_open _ hconn
  have hrt : countClose
      (run_full_test tr (⟨some true, 0⟩ : TesterState) intr).2.2.2 = 0 :=
    countClose_runPhases tr intr phaseList 0 ⟨some true, 0⟩
  have hmain : main OpenOutcome.opened tr intr =
      { exitCode :=
          if (run_full_test tr (⟨some true, 0⟩ : TesterState) intr).1 then 0 else 1,
        runResult := some (run_full_test tr (⟨some true, 0⟩ : TesterState) intr).1,
        finalState :=
          (disconnect
            (run_full_test tr (⟨some true, 0⟩ : TesterState) intr).2.2.1).1,
        trace := [Ev.openAttempt] ++
          (run_full_test tr (⟨some true, 0⟩ : TesterState) intr).2.2.2 ++
          (disconnect
            (run_full_test tr (⟨some true, 0⟩ : TesterState) intr).2.2.1).2 } :=
    rfl
  refine ⟨?_, ?_, ?_⟩
  · cases oc
    · rw [hmain]
      exact connIsOpen_disconnect _
    · rfl
    · rfl
  · intro hoc
    subst hoc
    rw [hmain]
    simp only
    rw [hd]
    simp only [countClose] at hrt ⊢
    simp only [List.countP_append, hrt]
    simp [isCloseEv]
  · intro k hk hk5
    have hfalse : (run_full_test tr (⟨some true, 0⟩ : TesterState) intr).1 =
        false :=
      (runPhases_false_iff tr intr phaseList 0 ⟨some true, 0⟩).mpr
        ⟨k, hk, Nat.zero_le k, show k < 0 + phaseList.length from hk5⟩
    constructor
    · rw [hmain]
      simp only
      rw [hfalse]
    · rw [hmain]
      simp only
      rw [hfalse]
      rfl

/-- Witness for claim C9: an interrupt during phase 3 (index 2) of a run on
a failing transport yields non-completion and one close. -/
theorem claim_C9_witness :
    (OpenOutcome.opened = OpenOutcome.opened) ∧
    ((some 2 : Option Nat) = some 2) ∧ 2 < 5 ∧
    countClose (main OpenOutcome.opened trTimeout (some 2)).trace = 1 ∧
    (main OpenOutcome.opened trTimeout (some 2)).runResult = some false :=
  ⟨rfl, rfl, by decide,
    (claim_C9 OpenOutcome.opened trTimeout (some 2)).2.1 rfl,
    ((claim_C9 OpenOutcome.opened trTimeout (some 2)).2.2 2 rfl (by decide)).1⟩

end RS485
